import Mathlib

/-!
Verification development for the paper-summarisation backend.

The definitions below are a shallow embedding of the job-orchestration core:

* `ProcessingStatus`, `ProcessingStep`, `PipelineState` mirror
  backend/app/models/schemas.py and backend/app/pipeline/state.py
  (the state module is taken from the app/pipeline/state.py copy in the
  repository, extended with the pdf_file_path field that the backend copy
  passes through pipeline_service.create_job and node_1_ingestion reads).
* the seven nodes and the run function mirror backend/app/pipeline/nodes.py;
  the LangGraph graph built in create_production_pipeline has only
  unconditional edges, so the compiled pipeline is the sequential
  composition of the seven node functions.  Calls to external collaborators
  (arXiv fetch, PDF parser, vector store, language model) are modelled by an
  `ExternalWorld` record holding each call's outcome; Python timestamps are
  modelled by a single abstract clock value.  The two chained model calls of
  node_4 are modelled as one compound outcome (their partial-write corner
  writes only fields no claim observes), and the arXiv-URL rewrite inside
  node_1 only changes input-echo fields that nothing later reads.
* the job store and service operations mirror
  backend/app/services/pipeline_service.py; the store is the dict
  `self.jobs`, modelled as an insertion-ordered association list with
  fresh-key insertion at the end (uuid4 keys are fresh).
* the rate limiter mirrors backend/app/api/dependencies.py: the Redis
  sorted set for one identity is a set of integer scores (the member of
  each entry is the textual timestamp, so at most one entry per second);
  the pipelined zremrangebyscore / zcard / zadd / expire block executes
  atomically before the count is inspected.  The expire call only refreshes
  the key's ttl and is not needed by any claim.
* numbers: Python floats that the claims compare against 0.0 and 1.0 are
  modelled as rationals; every value the code manufactures here is an exact
  decimal, so the comparisons agree with the float ones.
-/

inductive ProcessingStatus where
  | queued
  | ingesting
  | parsing
  | rag_processing
  | summarizing
  | contextualizing
  | novelty_analysis
  | humanizing
  | synthesizing
  | completed
  | failed
deriving DecidableEq, Repr

structure ProcessingStep where
  step_name : String
  status : ProcessingStatus
  started_at : Nat
  completed_at : Option Nat := none
  duration_seconds : Option Nat := none
  error_message : Option String := none
deriving DecidableEq, Repr

structure PaperMetadata where
  title : String
  authors : List String
  abstract : String
  published_date : String
  arxiv_id : String
  categories : List String
deriving DecidableEq, Repr

structure PipelineState where
  job_id : String
  status : ProcessingStatus
  created_at : Nat
  updated_at : Nat
  arxiv_id : Option String
  pdf_url : Option String
  pdf_file_path : Option String
  user_query : String
  paper_metadata : Option PaperMetadata
  pdf_path : Option String
  paper_content : String
  text_chunks : List String
  chunk_ids : List String
  retrieved_context : List String
  serious_summary : String
  contextual_analysis : String
  novelty_score : Rat
  novelty_analysis : String
  human_fun_summary : String
  final_digest : String
  tweet_thread : List String
  blog_post : String
  processing_steps : List ProcessingStep
  current_step : Option String
  error_message : Option String
deriving DecidableEq, Repr

/-- Python truthiness of an optional string: None and the empty string are falsy. -/
def truthy : Option String → Bool
  | none => false
  | some s => s != ""

/-- Characters matched by the regex class backslash-s and stripped by str.strip. -/
def is_re_space (c : Char) : Bool :=
  c == ' ' || c == '\t' || c == '\n' || c == '\r' || c == '\x0b' || c == '\x0c'

/-- Python str.strip with no argument. -/
def py_strip (s : String) : String :=
  ⟨((s.data.dropWhile is_re_space).reverse.dropWhile is_re_space).reverse⟩

/-- Index of the first occurrence of pat in l (Python str.find, as an Option). -/
def listFind (pat : List Char) : List Char → Option Nat
  | [] => if pat.isEmpty then some 0 else none
  | c :: rest =>
      if pat.isPrefixOf (c :: rest) then some 0
      else (listFind pat rest).map (· + 1)

/-- Python membership test, sub in s. -/
def py_in (sub s : String) : Bool :=
  (listFind sub.data s.data).isSome

/-- Python s[:i] for a found index: the text before the first occurrence of marker. -/
def cut_before (content marker : String) : Option String :=
  (listFind marker.data content.data).map (fun i => ⟨content.data.take i⟩)

/-- Replace every (non-overlapping, left-to-right) occurrence of pat by rep,
with a char-count fuel; fuel s.length is always enough, so this is exactly
Python str.replace for a nonempty pattern. -/
def replace_fuel (pat rep : List Char) : Nat → List Char → List Char
  | _, [] => []
  | 0, l => l
  | fuel + 1, c :: rest =>
      if !pat.isEmpty && pat.isPrefixOf (c :: rest) then
        rep ++ replace_fuel pat rep fuel ((c :: rest).drop pat.length)
      else c :: replace_fuel pat rep fuel rest

/-- Python str.replace (all occurrences). -/
def py_replace (s old new : String) : String :=
  ⟨replace_fuel old.data new.data s.data.length s.data⟩

/-- Python s.split for the one-character newline separator, structurally
(the core splitter does not reduce in the kernel). -/
def split_nl : List Char → List (List Char)
  | [] => [[]]
  | c :: rest =>
      if c = '\n' then [] :: split_nl rest
      else
        match split_nl rest with
        | [] => [[c]]
        | h :: t => (c :: h) :: t

/-- Python content.split of a newline, as strings. -/
def py_split_nl (s : String) : List String :=
  (split_nl s.data).map String.mk

/-- Python s.startswith(pre). -/
def py_startswith (s pre : String) : Bool :=
  pre.data.isPrefixOf s.data

/-- Python newline.join(parts). -/
def py_join_nl : List String → String
  | [] => ""
  | [x] => x
  | x :: y :: rest => x ++ "\n" ++ py_join_nl (y :: rest)

/-- Python s.lower, structurally. -/
def py_lower (s : String) : String :=
  ⟨s.data.map Char.toLower⟩

/-- Decimal digit run folded to a Nat. -/
def digitsToNat (l : List Char) : Nat :=
  l.foldl (fun a c => a * 10 + (c.toNat - '0'.toNat)) 0

/-- Value of a regex group of shape digits, optional dot, digits (Python float of it). -/
def groupToRat (g : List Char) : Rat :=
  let intPart := g.takeWhile Char.isDigit
  let rest := g.drop intPart.length
  let fracPart := match rest with
    | '.' :: f => f
    | _ => []
  (digitsToNat intPart : Rat) + (digitsToNat fracPart : Rat) / ((10 : Rat) ^ fracPart.length)

/-- Attempt of the pattern Overall Novelty Score, colon, whitespace, digits
with optional fraction, anchored at the head of l; returns the captured group.
The whitespace star is greedy and backtracking cannot help it (a shorter
match leaves a whitespace character where a digit is required), so
drop-then-take is exact. -/
def score_match_at (l : List Char) : Option (List Char) :=
  if ("Overall Novelty Score:".data).isPrefixOf l then
    let afterLit := l.drop "Overall Novelty Score:".data.length
    let afterWs := afterLit.dropWhile is_re_space
    let digits := afterWs.takeWhile Char.isDigit
    if digits.isEmpty then none
    else
      match afterWs.drop digits.length with
      | '.' :: r => some (digits ++ '.' :: r.takeWhile Char.isDigit)
      | _ => some digits
  else none

/-- re.search of the novelty-score pattern: try every start position, leftmost wins. -/
def search_score : List Char → Option (List Char)
  | [] => none
  | c :: rest =>
      match score_match_at (c :: rest) with
      | some g => some g
      | none => search_score rest

/-- Keyword list of the novelty fallback in node_5_novelty. -/
def novelty_keywords : List String :=
  ["novel", "new", "first", "breakthrough", "unprecedented", "innovative"]

/-- Fallback novelty score: keyword hits in the lowered summary divided by 10, clamped at 1. -/
def fallback_novelty_score (serious_summary : String) : Rat :=
  let score : Rat :=
    ((novelty_keywords.filter (fun w => py_in w (py_lower serious_summary))).length : Rat) / 10
  min score 1

/-- Novelty score produced by node_5_novelty from the model response text:
the parsed Overall Novelty Score value when the pattern occurs, else the
keyword fallback.  (The surrounding Python try/except default of 0.5 guards
float conversion, which cannot fail on a captured group of this shape.) -/
def parse_novelty_score (novelty_text serious_summary : String) : Rat :=
  match search_score novelty_text.data with
  | some g => groupToRat g
  | none => fallback_novelty_score serious_summary

/-- Collector loop of the digest fallback in node_7_output: keep a line when it
mentions a Professor or Friend tag, starts (stripped) with a double quote, or
continues a nonempty collection without opening a numbered or titled section;
stop at a section marker once something was collected; otherwise skip it. -/
def conv_line_keep (acc_nonempty : Bool) (line : String) : Bool :=
  py_in "**Professor:**" line || py_in "**Friend:**" line ||
  py_startswith (py_strip line) "\"" ||
  (acc_nonempty &&
    !(py_startswith (py_strip line) "1/" || py_startswith (py_strip line) "2/" ||
      py_startswith (py_strip line) "3/" || py_startswith (py_strip line) "#" ||
      py_startswith (py_strip line) "##"))

def conv_line_stop (acc_nonempty : Bool) (line : String) : Bool :=
  acc_nonempty &&
    (py_startswith (py_strip line) "1/" || py_startswith (py_strip line) "2/" ||
     py_startswith (py_strip line) "3/" ||
     py_in "TWITTER THREAD" line || py_in "BLOG POST" line)

def conversation_collect (acc : List String) : List String → List String
  | [] => acc
  | line :: rest =>
      if conv_line_keep (!acc.isEmpty) line then conversation_collect (acc ++ [line]) rest
      else if conv_line_stop (!acc.isEmpty) line then acc
      else conversation_collect acc rest

/-- The friend conversation before header cleanup: the stripped text before the
first tweet marker, else before the literal TWITTER THREAD heading, else the
joined lines kept by the collector loop. -/
def friend_conversation_raw (content : String) : String :=
  match cut_before content "1/🧵" with
  | some pre => py_strip pre
  | none =>
      match cut_before content "2. TWITTER THREAD" with
      | some pre => py_strip pre
      | none =>
          py_strip (py_join_nl (conversation_collect [] (py_split_nl content)))

/-- Removal of the section headers from the conversation, then a final strip. -/
def cleanup_conversation (fc : String) : String :=
  py_strip (py_replace
    (py_replace fc "1. FRIEND\x27S TAKE - COFFEE CHAT CONVERSATION" "")
    "FRIEND\x27S TAKE - COFFEE CHAT CONVERSATION" "")

/-- final_digest written by node_7_output: the cleaned conversation, or the whole
response when that is empty. -/
def extract_final_digest (content : String) : String :=
  let fc := cleanup_conversation (friend_conversation_raw content)
  if fc = "" then content else fc

/-- The nine tweet markers, ordinal slash thread emoji, for ordinals 1 through 9. -/
def tweet_markers : List String :=
  ["1/🧵", "2/🧵", "3/🧵", "4/🧵", "5/🧵", "6/🧵", "7/🧵", "8/🧵", "9/🧵"]

/-- tweet_thread written by node_7_output: stripped nonempty lines starting with a
tweet marker, in line order. -/
def extract_tweet_thread (content : String) : List String :=
  (py_split_nl content).filterMap (fun line =>
    let t := py_strip line
    if t != "" && tweet_markers.any (fun m => py_startswith t m) then some t else none)

/-- blog_post written by node_7_output: the text from the first blog heading
onward with the colon-terminated heading label removed and stripped, else empty. -/
def extract_blog_post (content : String) : String :=
  match listFind "3. BLOG POST STRUCTURE".data content.data with
  | some i => py_strip (py_replace ⟨content.data.drop i⟩ "3. BLOG POST STRUCTURE:" "")
  | none =>
      match listFind "BLOG POST STRUCTURE".data content.data with
      | some i => py_strip (py_replace ⟨content.data.drop i⟩ "BLOG POST STRUCTURE:" "")
      | none => ""

/-- Outcome of node_1's external work (metadata lookup or download plus the
produced local PDF path), common to its three input branches. -/
structure IngestOk where
  metadata : PaperMetadata
  pdf_path : String
deriving DecidableEq, Repr

/-- Outcomes of every external call a pipeline run makes, plus the clock.
An error value carries str(e) of the exception raised by the collaborator. -/
structure ExternalWorld where
  now : Nat
  ingest : Except String IngestOk
  parse : Except String String
  rag : Except String (List String × List String × List String)
  summarize : Except String (String × String)
  novelty : Except String String
  humanize : Except String String
  synthesize : Except String String

/-- Update of the last list entry, if any (Python mutation of steps[-1]). -/
def modifyLast (f : ProcessingStep → ProcessingStep) : List ProcessingStep → List ProcessingStep
  | [] => []
  | st :: rest => if rest.isEmpty then [f st] else st :: modifyLast f rest

/-- _log_step_start: append a fresh step with the in-progress marker and set current_step. -/
def log_step_start (s : PipelineState) (step_name : String) (now : Nat) : PipelineState :=
  { s with
      processing_steps := s.processing_steps ++
        [{ step_name := step_name, status := ProcessingStatus.ingesting, started_at := now }],
      current_step := some step_name }

/-- _log_step_complete: mark the last step completed when its name matches. -/
def log_step_complete (s : PipelineState) (step_name : String) (now : Nat) : PipelineState :=
  { s with
      processing_steps := modifyLast (fun st =>
        if st.step_name = step_name then
          { st with
              completed_at := some now,
              status := ProcessingStatus.completed,
              duration_seconds := some (now - st.started_at) }
        else st) s.processing_steps }

/-- _log_step_error: mark the last step failed with the message when its name matches. -/
def log_step_error (s : PipelineState) (step_name error : String) (now : Nat) : PipelineState :=
  { s with
      processing_steps := modifyLast (fun st =>
        if st.step_name = step_name then
          { st with
              status := ProcessingStatus.failed,
              error_message := some error,
              completed_at := some now }
        else st) s.processing_steps }

/-- The shared except-branch of every node: record the message on the job and the
current step and set the job status to failed. -/
def node_fail (s : PipelineState) (step_name msg : String) (now : Nat) : PipelineState :=
  log_step_error
    { s with error_message := some msg, status := ProcessingStatus.failed }
    step_name msg now

def node_1_ingestion (w : ExternalWorld) (s0 : PipelineState) : PipelineState :=
  let s := log_step_start s0 "ingestion" w.now
  if truthy s.arxiv_id || truthy s.pdf_file_path || truthy s.pdf_url then
    match w.ingest with
    | Except.ok r =>
        log_step_complete
          { s with
              paper_metadata := some r.metadata,
              pdf_path := some r.pdf_path,
              status := ProcessingStatus.parsing }
          "ingestion" w.now
    | Except.error e => node_fail s "ingestion" ("Ingestion failed: " ++ e) w.now
  else
    log_step_complete { s with status := ProcessingStatus.parsing } "ingestion" w.now

def node_2_parsing (w : ExternalWorld) (s0 : PipelineState) : PipelineState :=
  let s := log_step_start s0 "parsing" w.now
  if !truthy s.pdf_path then
    node_fail s "parsing" "Parsing failed: No PDF path available for parsing" w.now
  else
    match w.parse with
    | Except.ok content =>
        log_step_complete
          { s with
              paper_content := py_strip content,
              status := ProcessingStatus.rag_processing }
          "parsing" w.now
    | Except.error e => node_fail s "parsing" ("Parsing failed: " ++ e) w.now

def node_3_rag (w : ExternalWorld) (s0 : PipelineState) : PipelineState :=
  let s := log_step_start s0 "rag_processing" w.now
  if s.paper_content == "" then
    node_fail s "rag_processing"
      "RAG processing failed: No paper content available for RAG processing" w.now
  else
    match w.rag with
    | Except.ok r =>
        log_step_complete
          { s with
              text_chunks := r.1,
              chunk_ids := r.2.1,
              retrieved_context := r.2.2,
              status := ProcessingStatus.summarizing }
          "rag_processing" w.now
    | Except.error e => node_fail s "rag_processing" ("RAG processing failed: " ++ e) w.now

def node_4_summarizer_context (w : ExternalWorld) (s0 : PipelineState) : PipelineState :=
  let s := log_step_start s0 "summarizer_context" w.now
  match w.summarize with
  | Except.ok r =>
      log_step_complete
        { s with
            serious_summary := r.1,
            contextual_analysis := r.2,
            status := ProcessingStatus.novelty_analysis }
        "summarizer_context" w.now
  | Except.error e => node_fail s "summarizer_context" ("Summarization failed: " ++ e) w.now

def node_5_novelty (w : ExternalWorld) (s0 : PipelineState) : PipelineState :=
  let s := log_step_start s0 "novelty_analysis" w.now
  match w.novelty with
  | Except.ok txt =>
      log_step_complete
        { s with
            novelty_score := parse_novelty_score txt s.serious_summary,
            novelty_analysis := txt,
            status := ProcessingStatus.humanizing }
        "novelty_analysis" w.now
  | Except.error e => node_fail s "novelty_analysis" ("Novelty analysis failed: " ++ e) w.now

def node_6_fun (w : ExternalWorld) (s0 : PipelineState) : PipelineState :=
  let s := log_step_start s0 "humanizing" w.now
  match w.humanize with
  | Except.ok txt =>
      log_step_complete
        { s with
            human_fun_summary := txt,
            status := ProcessingStatus.synthesizing }
        "humanizing" w.now
  | Except.error e => node_fail s "humanizing" ("Fun translation failed: " ++ e) w.now

def node_7_output (w : ExternalWorld) (s0 : PipelineState) : PipelineState :=
  let s := log_step_start s0 "output_generation" w.now
  match w.synthesize with
  | Except.ok content =>
      log_step_complete
        { s with
            final_digest := extract_final_digest content,
            tweet_thread := extract_tweet_thread content,
            blog_post := extract_blog_post content,
            status := ProcessingStatus.completed }
        "output_generation" w.now
  | Except.error e => node_fail s "output_generation" ("Output generation failed: " ++ e) w.now

/-- The compiled production pipeline: unconditional edges from START through the
seven nodes to END, hence plain sequential composition. -/
def run_pipeline (w : ExternalWorld) (s : PipelineState) : PipelineState :=
  node_7_output w (node_6_fun w (node_5_novelty w (node_4_summarizer_context w
    (node_3_rag w (node_2_parsing w (node_1_ingestion w s))))))

/-- create_initial_state of pipeline/state.py, with the fresh uuid and the clock
as explicit arguments. -/
def create_initial_state (arxiv_id pdf_url pdf_file_path : Option String)
    (user_query : String) (job_id : String) (now : Nat) : PipelineState :=
  { job_id := job_id
    status := ProcessingStatus.queued
    created_at := now
    updated_at := now
    arxiv_id := arxiv_id
    pdf_url := pdf_url
    pdf_file_path := pdf_file_path
    user_query := user_query
    paper_metadata := none
    pdf_path := none
    paper_content := ""
    text_chunks := []
    chunk_ids := []
    retrieved_context := []
    serious_summary := ""
    contextual_analysis := ""
    novelty_score := 0
    novelty_analysis := ""
    human_fun_summary := ""
    final_digest := ""
    tweet_thread := []
    blog_post := ""
    processing_steps := []
    current_step := none
    error_message := none }

/-- A paper-processing request after body parsing (PaperProcessRequest). -/
structure PaperProcessRequest where
  arxiv_id : Option String := none
  pdf_url : Option String := none
  pdf_file_path : Option String := none
  user_query : Option String := none
deriving DecidableEq, Repr

/-- The in-memory job registry self.jobs: a dict keyed by job id, insertion
ordered; uuid4 keys are fresh, so insertion appends. -/
abbrev JobStore := List (String × PipelineState)

/-- Python dict lookup jobs[job_id] (unique keys, first match). -/
def store_lookup (jobs : JobStore) (job_id : String) : Option PipelineState :=
  (List.find? (fun e => e.fst == job_id) jobs).map Prod.snd

/-- Python dict in-place mutation of the entry at job_id. -/
def store_update (jobs : JobStore) (job_id : String) (st : PipelineState) : JobStore :=
  List.map (fun e => if e.fst == job_id then (e.fst, st) else e) jobs

/-- PipelineService.create_job: build the initial state from the request
(user_query default via Python or-empty) and insert it; returns the new store
and the stored state. -/
def create_job (jobs : JobStore) (r : PaperProcessRequest) (job_id : String) (now : Nat) :
    JobStore × PipelineState :=
  let st := create_initial_state r.arxiv_id r.pdf_url r.pdf_file_path
    (match r.user_query with
     | none => ""
     | some q => q) job_id now
  (jobs ++ [(job_id, st)], st)

/-- The completed-only analysis bundle added by get_job_status. -/
structure AnalysisSnapshot where
  serious_summary : String
  contextual_analysis : String
  novelty_score : Rat
  human_fun_summary : String
  final_digest : String
  tweet_thread : List String
  blog_post : String
deriving DecidableEq, Repr

/-- The response dict built by PipelineService.get_job_status. -/
structure JobSnapshot where
  job_id : String
  status : ProcessingStatus
  processing_steps : List ProcessingStep
  current_step : Option String
  error_message : Option String
  paper_metadata : Option PaperMetadata
  analysis_result : Option AnalysisSnapshot
deriving DecidableEq, Repr

/-- PipelineService.get_job_status: none for an unknown id, else a snapshot whose
analysis_result is present exactly when the status is completed. -/
def get_job_status (jobs : JobStore) (job_id : String) : Option JobSnapshot :=
  (store_lookup jobs job_id).map (fun st =>
    { job_id := job_id
      status := st.status
      processing_steps := st.processing_steps
      current_step := st.current_step
      error_message := st.error_message
      paper_metadata := st.paper_metadata
      analysis_result :=
        if st.status = ProcessingStatus.completed then
          some
            { serious_summary := st.serious_summary
              contextual_analysis := st.contextual_analysis
              novelty_score := st.novelty_score
              human_fun_summary := st.human_fun_summary
              final_digest := st.final_digest
              tweet_thread := st.tweet_thread
              blog_post := st.blog_post }
        else none })

/-- PipelineService.list_jobs: walk the positional window
items[offset : offset + limit] of the insertion-ordered store, skip entries the
truthy status filter rejects, and snapshot the rest. -/
def list_jobs (jobs : JobStore) (status_filter : Option ProcessingStatus)
    (limit offset : Nat) : List JobSnapshot :=
  ((List.drop offset jobs).take limit).filterMap (fun e =>
    match status_filter with
    | some f => if e.snd.status != f then none else get_job_status jobs e.fst
    | none => get_job_status jobs e.fst)

/-- GET /jobs: clamp the requested limit to 100, then delegate to the service. -/
def list_jobs_endpoint (jobs : JobStore) (status_filter : Option ProcessingStatus)
    (limit offset : Nat) : List JobSnapshot :=
  let limit := if limit > 100 then 100 else limit
  list_jobs jobs status_filter limit offset

/-- The statuses PipelineService.cancel_job is willing to cancel. -/
def cancellable_statuses : List ProcessingStatus :=
  [ProcessingStatus.queued, ProcessingStatus.ingesting, ProcessingStatus.parsing,
   ProcessingStatus.rag_processing, ProcessingStatus.summarizing,
   ProcessingStatus.humanizing]

/-- PipelineService.cancel_job: False for an unknown id; if the status is in the
allowed list, mark the record failed with the fixed message and return True;
otherwise leave the store alone and return False. -/
def cancel_job (jobs : JobStore) (job_id : String) (now : Nat) : Bool × JobStore :=
  match store_lookup jobs job_id with
  | none => (false, jobs)
  | some st =>
      if st.status ∈ cancellable_statuses then
        (true,
         store_update jobs job_id
           { st with
               status := ProcessingStatus.failed,
               error_message := some "Job cancelled by user",
               updated_at := now })
      else (false, jobs)

/-- Result of POST /papers/process before scheduling. -/
inductive CreateOutcome where
  | created (job : PipelineState)
  | validation_error (detail : String)
deriving DecidableEq, Repr

/-- The process_paper endpoint: reject with HTTP 400 when neither arxiv_id nor
pdf_url is truthy (the pydantic validate_input_source validator checks the same
two fields and is skipped altogether when pdf_url is absent from the body), else
create and store the job.  Returns the outcome and the resulting store. -/
def process_paper (jobs : JobStore) (r : PaperProcessRequest) (job_id : String) (now : Nat) :
    CreateOutcome × JobStore :=
  if !truthy r.arxiv_id && !truthy r.pdf_url then
    (CreateOutcome.validation_error "Either arxiv_id or pdf_url must be provided", jobs)
  else
    let res := create_job jobs r job_id now
    (CreateOutcome.created res.snd, res.fst)

/-- State of the Redis sorted set backing one identity of the rate limiter, as
seen by one admission check: the connection may be down, the block of commands
may raise, or the member scores are available. -/
inductive StoreAccess where
  | unavailable
  | errored
  | avail (entries : List Int)
deriving DecidableEq, Repr

inductive RateOutcome where
  | admitted
  | rejected
deriving DecidableEq, Repr

structure RateResult where
  outcome : RateOutcome
  store : StoreAccess
deriving DecidableEq, Repr

/-- zremrangebyscore key 0 (now - window): drop every score in that closed range. -/
def zrem_trim (entries : List Int) (now window : Int) : List Int :=
  entries.filter (fun t => decide ¬(0 ≤ t ∧ t ≤ now - window))

/-- zadd of the member str(now) with score now: a set insert keyed by the second. -/
def zadd_now (entries : List Int) (now : Int) : List Int :=
  if now ∈ entries then entries else entries ++ [now]

/-- rate_limit_check of api/dependencies.py.  No connection: skip the check.
The pipelined trim / count / add / expire block runs atomically before the
count is compared with the quota, so the add lands even on rejection; any
exception other than the over-quota HTTPException is swallowed and the request
goes through. -/
def rate_limit_check (store : StoreAccess) (now window quota : Int) : RateResult :=
  match store with
  | StoreAccess.unavailable => { outcome := RateOutcome.admitted, store := StoreAccess.unavailable }
  | StoreAccess.errored => { outcome := RateOutcome.admitted, store := StoreAccess.errored }
  | StoreAccess.avail entries =>
      let trimmed := zrem_trim entries now window
      let request_count : Int := trimmed.length
      let after := zadd_now trimmed now
      if request_count ≥ quota then
        { outcome := RateOutcome.rejected, store := StoreAccess.avail after }
      else
        { outcome := RateOutcome.admitted, store := StoreAccess.avail after }

/-- Sample metadata returned by a successful catalog lookup. -/
def demo_metadata : PaperMetadata :=
  { title := "T", authors := ["A"], abstract := "Abs", published_date := "2024",
    arxiv_id := "1234.5678", categories := ["cs.AI"] }

/-- A run in which ingestion succeeds, the PDF parser raises, and every model
call afterwards succeeds (each stage node calls its collaborator regardless of
earlier failures). -/
def world_parse_fails : ExternalWorld :=
  { now := 0
    ingest := Except.ok { metadata := demo_metadata, pdf_path := "/papers/job-1.pdf" }
    parse := Except.error "boom"
    rag := Except.ok ([], [], [])
    summarize := Except.ok ("S", "C")
    novelty := Except.ok "n"
    humanize := Except.ok "H"
    synthesize := Except.ok "X" }

/-- A freshly created job with a catalog id. -/
def demo_job : PipelineState :=
  create_initial_state (some "1234.5678") none none "" "job-1" 0

/-- The documented synthesizer example, with the concrete markers of the code:
tweet markers ordinal slash thread emoji and the blog heading with its colon. -/
def c7_example : String :=
  "Chat...\n1/🧵 Hook\n2/🧵 Point\n3. BLOG POST STRUCTURE:\n# Title\nBody"

/-- A response with no marker of any kind and no conversation-shaped line. -/
def c7_plain : String := "Some plain response with no markers"

/-- A response with no markers whose second line matches the conversation
heuristic of the digest fallback. -/
def c7_fallback : String := "Intro\n**Friend:** hi"

/-- Spec-side short-post extraction, written from the specification words:
every line beginning (once stripped) with an ordinal marker, in line order. -/
def spec_short_posts (content : String) : List String :=
  ((py_split_nl content).map py_strip).filter
    (fun t => tweet_markers.any (fun m => py_startswith t m))

/-- A model response whose Overall Novelty Score line carries 2.5. -/
def c8_response : String := "Overall Novelty Score: 2.5"

/-- A run whose novelty response scores 2.5 and whose other calls all succeed. -/
def c8_world : ExternalWorld :=
  { world_parse_fails with
      parse := Except.ok "text",
      novelty := Except.ok c8_response }

/-- The job state entering the novelty stage in the c8 run. -/
def c8_pre : PipelineState :=
  node_4_summarizer_context c8_world (node_3_rag c8_world (node_2_parsing c8_world
    (node_1_ingestion c8_world demo_job)))

/-- A stored job sitting in the novelty-analysis status. -/
def c3_state : PipelineState :=
  { create_initial_state (some "2310.06825") none none "" "job-n" 0 with
      status := ProcessingStatus.novelty_analysis }

/-- A stored job sitting in the summarizing status. -/
def c3_running : PipelineState :=
  { create_initial_state (some "2310.06825") none none "" "job-r" 0 with
      status := ProcessingStatus.summarizing }

/-- A request carrying only an uploaded-file path. -/
def c4_request : PaperProcessRequest := { pdf_file_path := some "/tmp/upload.pdf" }

/-- A request carrying a catalog id. -/
def c4_ok_request : PaperProcessRequest := { arxiv_id := some "2310.06825" }

/-- A request used to create the three listed jobs. -/
def c9_req : PaperProcessRequest := { arxiv_id := some "2310.06825" }

/-- The store after three create_job calls, in creation order a, b, c. -/
def c9_store : JobStore :=
  (create_job (create_job (create_job [] c9_req "a" 0).fst c9_req "b" 1).fst c9_req "c" 2).fst

/-- A failed job followed by a completed one, for the paging-filter scenario. -/
def c10_job_a : PipelineState :=
  { create_initial_state (some "a1") none none "" "job-a" 0 with
      status := ProcessingStatus.failed }

def c10_job_b : PipelineState :=
  { create_initial_state (some "b1") none none "" "job-b" 0 with
      status := ProcessingStatus.completed }

def c10_store : JobStore := [("job-a", c10_job_a), ("job-b", c10_job_b)]

/-- Spec-side listing written from the claim words: take the positional window
offset to offset plus limit of the insertion-ordered store first, then keep
exactly the jobs in that window whose status matches, then snapshot them. -/
def slice_then_filter (jobs : JobStore) (f : ProcessingStatus) (limit offset : Nat) :
    List JobSnapshot :=
  (((List.drop offset jobs).take limit).filter (fun e => e.snd.status == f)).filterMap
    (fun e => get_job_status jobs e.fst)

/-- Updating the last entry preserves the length of the step list. -/
theorem length_modifyLast (f : ProcessingStep → ProcessingStep) :
    ∀ l : List ProcessingStep, (modifyLast f l).length = l.length := by
  intro l
  induction l with
  | nil => rfl
  | cons st rest ih =>
      cases rest with
      | nil => rfl
      | cons r rs => simpa [modifyLast] using ih

/-- Updating the last entry of a list ending in x rewrites exactly that x. -/
theorem modifyLast_append_single (f : ProcessingStep → ProcessingStep)
    (l : List ProcessingStep) (x : ProcessingStep) :
    modifyLast f (l ++ [x]) = l ++ [f x] := by
  induction l with
  | nil => rfl
  | cons a rest ih => simp [modifyLast, ih]

/-- getLast of a list ending in x is x. -/
theorem getLast?_append_single (l : List ProcessingStep) (x : ProcessingStep) :
    (l ++ [x]).getLast? = some x :=
  List.getLast?_concat l

/-- Claim C6: if the shared store backing the rate limiter is unavailable, or any
error other than the over-quota rejection itself occurs while applying the
check, the limiter fails open: the admission check returns without signalling
rejection, so every request is admitted. -/
theorem c6_fail_open (now window quota : Int) :
    (rate_limit_check StoreAccess.unavailable now window quota).outcome = RateOutcome.admitted ∧
    (rate_limit_check StoreAccess.errored now window quota).outcome = RateOutcome.admitted :=
  ⟨rfl, rfl⟩

/-- Counterexample to claim C5: with quota 1, window 10 and a single stored
timestamp 5, a check at time 6 is rejected, yet the stored multiset changes
from 5 alone to 5 and 6: the zadd of the pipelined block lands before the
over-quota comparison runs. -/
theorem c5_counterexample :
    (rate_limit_check (StoreAccess.avail [5]) 6 10 1).outcome = RateOutcome.rejected ∧
    (rate_limit_check (StoreAccess.avail [5]) 6 10 1).store = StoreAccess.avail [5, 6] ∧
    StoreAccess.avail [5, 6] ≠ StoreAccess.avail [5] := by
  refine ⟨rfl, rfl, by decide⟩

/-- Claim C5 (amended): when, after the trim, the per-identity count is at or
above the quota, the check is rejected and no admission occurs, but the stored
window is not left unchanged: the block has already trimmed it and added an
entry at now (unless one for that second already exists); below quota the same
mutation happens and the request is admitted. -/
theorem c5_amended (entries : List Int) (now window quota : Int) :
    (((zrem_trim entries now window).length : Int) ≥ quota →
      rate_limit_check (StoreAccess.avail entries) now window quota =
        { outcome := RateOutcome.rejected,
          store := StoreAccess.avail (zadd_now (zrem_trim entries now window) now) }) ∧
    (((zrem_trim entries now window).length : Int) < quota →
      rate_limit_check (StoreAccess.avail entries) now window quota =
        { outcome := RateOutcome.admitted,
          store := StoreAccess.avail (zadd_now (zrem_trim entries now window) now) }) := by
  constructor
  · intro h
    simp [rate_limit_check, h]
  · intro h
    simp [rate_limit_check, not_le.mpr h]

/-- Witness for c5_amended at the concrete over-quota store. -/
theorem c5_amended_witness :
    (((zrem_trim [5] 6 10).length : Int) ≥ 1) ∧
    rate_limit_check (StoreAccess.avail [5]) 6 10 1 =
      { outcome := RateOutcome.rejected,
        store := StoreAccess.avail (zadd_now (zrem_trim [5] 6 10) 6) } :=
  ⟨by decide, (c5_amended [5] 6 10 1).1 (by decide)⟩

/-- Claim C8: the novelty stage does not clamp the score it parses from the
Overall Novelty Score line; a response scoring 2.5 is stored as 2.5, above the
documented upper bound 1.0 of the novelty_score field. -/
theorem c8_novelty_score_exceeds_bound :
    (node_5_novelty c8_world c8_pre).novelty_score = 5 / 2 ∧
    parse_novelty_score c8_response "irrelevant summary" = 5 / 2 ∧
    ¬((5 : Rat) / 2 ≤ 1) := by
  have hgroup : ∀ s : String, parse_novelty_score c8_response s = 5 / 2 := by
    intro s
    have hs : search_score c8_response.data = some ['2', '.', '5'] := by decide
    have hp : parse_novelty_score c8_response s = groupToRat ['2', '.', '5'] := by
      unfold parse_novelty_score
      rw [hs]
    have hg : groupToRat ['2', '.', '5'] =
        ((2 : Nat) : Rat) + ((5 : Nat) : Rat) / ((10 : Rat) ^ (1 : Nat)) := rfl
    rw [hp, hg]
    norm_num
  have hnode : (node_5_novelty c8_world c8_pre).novelty_score =
      parse_novelty_score c8_response c8_pre.serious_summary := rfl
  refine ⟨by rw [hnode, hgroup], hgroup _, by norm_num⟩

/-- Counterexample to claim C4: a request supplying only the uploaded-file path
is rejected by input validation, although the claim says any one of the three
input sources suffices. -/
theorem c4_counterexample :
    truthy c4_request.pdf_file_path = true ∧
    (process_paper [] c4_request "job-2" 0).fst =
      CreateOutcome.validation_error "Either arxiv_id or pdf_url must be provided" ∧
    (process_paper [] c4_request "job-2" 0).snd = [] := by
  refine ⟨by decide, by decide, by decide⟩

/-- Claim C4 (amended): creation fails with the validation error exactly when
neither the catalog id nor the remote URL is supplied (a file path alone is
rejected); when either of those two is supplied, creation succeeds and the new
job is appended to the store in Queued status. -/
theorem c4_amended (jobs : JobStore) (r : PaperProcessRequest) (job_id : String) (now : Nat) :
    (truthy r.arxiv_id = false → truthy r.pdf_url = false →
      process_paper jobs r job_id now =
        (CreateOutcome.validation_error "Either arxiv_id or pdf_url must be provided", jobs)) ∧
    (truthy r.arxiv_id = true ∨ truthy r.pdf_url = true →
      (process_paper jobs r job_id now).fst =
        CreateOutcome.created (create_job jobs r job_id now).snd ∧
      (process_paper jobs r job_id now).snd =
        jobs ++ [(job_id, (create_job jobs r job_id now).snd)] ∧
      (create_job jobs r job_id now).snd.status = ProcessingStatus.queued) := by
  constructor
  · intro h1 h2
    simp [process_paper, h1, h2]
  · intro h
    have hcond : (!truthy r.arxiv_id && !truthy r.pdf_url) = false := by
      rcases h with h | h <;> simp [h]
    refine ⟨?_, ?_, rfl⟩ <;> simp [process_paper, hcond, create_job]

/-- Witness for c4_amended at a request carrying a catalog id. -/
theorem c4_amended_witness :
    (truthy c4_ok_request.arxiv_id = true ∨ truthy c4_ok_request.pdf_url = true) ∧
    ((process_paper [] c4_ok_request "job-3" 0).fst =
        CreateOutcome.created (create_job [] c4_ok_request "job-3" 0).snd ∧
      (process_paper [] c4_ok_request "job-3" 0).snd =
        [] ++ [("job-3", (create_job [] c4_ok_request "job-3" 0).snd)] ∧
      (create_job [] c4_ok_request "job-3" 0).snd.status = ProcessingStatus.queued) :=
  ⟨Or.inl (by decide), (c4_amended [] c4_ok_request "job-3" 0).2 (Or.inl (by decide))⟩

/-- Every node appends exactly one processing step, whatever happens inside it. -/
theorem steps_len_node_1 (w : ExternalWorld) (s : PipelineState) :
    (node_1_ingestion w s).processing_steps.length = s.processing_steps.length + 1 := by
  simp only [node_1_ingestion]
  split
  · rcases w.ingest with e | r <;>
      simp [log_step_complete, node_fail, log_step_error, log_step_start, length_modifyLast]
  · simp [log_step_complete, log_step_start, length_modifyLast]

theorem steps_len_node_2 (w : ExternalWorld) (s : PipelineState) :
    (node_2_parsing w s).processing_steps.length = s.processing_steps.length + 1 := by
  simp only [node_2_parsing]
  split
  · simp [node_fail, log_step_error, log_step_start, length_modifyLast]
  · rcases w.parse with e | r <;>
      simp [log_step_complete, node_fail, log_step_error, log_step_start, length_modifyLast]

theorem steps_len_node_3 (w : ExternalWorld) (s : PipelineState) :
    (node_3_rag w s).processing_steps.length = s.processing_steps.length + 1 := by
  simp only [node_3_rag]
  split
  · simp [node_fail, log_step_error, log_step_start, length_modifyLast]
  · rcases w.rag with e | r <;>
      simp [log_step_complete, node_fail, log_step_error, log_step_start, length_modifyLast]

theorem steps_len_node_4 (w : ExternalWorld) (s : PipelineState) :
    (node_4_summarizer_context w s).processing_steps.length = s.processing_steps.length + 1 := by
  simp only [node_4_summarizer_context]
  rcases w.summarize with e | r <;>
    simp [log_step_complete, node_fail, log_step_error, log_step_start, length_modifyLast]

theorem steps_len_node_5 (w : ExternalWorld) (s : PipelineState) :
    (node_5_novelty w s).processing_steps.length = s.processing_steps.length + 1 := by
  simp only [node_5_novelty]
  rcases w.novelty with e | r <;>
    simp [log_step_complete, node_fail, log_step_error, log_step_start, length_modifyLast]

theorem steps_len_node_6 (w : ExternalWorld) (s : PipelineState) :
    (node_6_fun w s).processing_steps.length = s.processing_steps.length + 1 := by
  simp only [node_6_fun]
  rcases w.humanize with e | r <;>
    simp [log_step_complete, node_fail, log_step_error, log_step_start, length_modifyLast]

theorem steps_len_node_7 (w : ExternalWorld) (s : PipelineState) :
    (node_7_output w s).processing_steps.length = s.processing_steps.length + 1 := by
  simp only [node_7_output]
  rcases w.synthesize with e | r <;>
    simp [log_step_complete, node_fail, log_step_error, log_step_start, length_modifyLast]

/-- Counterexample to claim C1: in a run whose Parsing stage fails (and whose
model calls happen to succeed), the job ends with 7 recorded steps, not 2, and
its final status is not Failed: the graph edges are unconditional, so every
later stage still executes. -/
theorem c1_counterexample :
    (run_pipeline world_parse_fails demo_job).processing_steps.length = 7 ∧
    (run_pipeline world_parse_fails demo_job).status ≠ ProcessingStatus.failed := by
  refine ⟨by decide, by decide⟩

/-- Claim C1 (amended): a stage failure is recorded on the job and on its own
step, but the pipeline does not stop: every one of the seven stages runs and
appends exactly one ProcessingStep in every run.  In the concrete
parsing-failure run the job ends with 7 steps (ingestion Completed, parsing
Failed with its message, rag Failed because the content guard fires, and the
remaining four as their external calls dictate), and the final status is
whatever the last stage set. -/
theorem c1_amended :
    (∀ (w : ExternalWorld) (s : PipelineState),
      (run_pipeline w s).processing_steps.length = s.processing_steps.length + 7) ∧
    (run_pipeline world_parse_fails demo_job).processing_steps.map ProcessingStep.status =
      [ProcessingStatus.completed, ProcessingStatus.failed, ProcessingStatus.failed,
       ProcessingStatus.completed, ProcessingStatus.completed, ProcessingStatus.completed,
       ProcessingStatus.completed] ∧
    (run_pipeline world_parse_fails demo_job).processing_steps.map ProcessingStep.error_message =
      [none, some "Parsing failed: boom",
       some "RAG processing failed: No paper content available for RAG processing",
       none, none, none, none] ∧
    (run_pipeline world_parse_fails demo_job).status = ProcessingStatus.completed := by
  refine ⟨?_, by decide, by decide, by decide⟩
  intro w s
  simp only [run_pipeline, steps_len_node_7, steps_len_node_6, steps_len_node_5,
    steps_len_node_4, steps_len_node_3, steps_len_node_2, steps_len_node_1]

/-- The output node always ends the run by appending one step whose final status
agrees with the job status it sets: completed together, or failed together. -/
theorem node_7_last_step (w : ExternalWorld) (s : PipelineState) :
    ∃ st : ProcessingStep,
      (node_7_output w s).processing_steps = s.processing_steps ++ [st] ∧
      (((node_7_output w s).status = ProcessingStatus.completed ∧
          st.status = ProcessingStatus.completed) ∨
       ((node_7_output w s).status = ProcessingStatus.failed ∧
          st.status = ProcessingStatus.failed)) := by
  rcases hw : w.synthesize with e | r
  · refine ⟨ProcessingStep.mk "output_generation" ProcessingStatus.failed w.now
        (some w.now) none (some ("Output generation failed: " ++ e)), ?_, Or.inr ⟨?_, rfl⟩⟩
    · simp only [node_7_output, hw, node_fail, log_step_error, log_step_start]
      rw [modifyLast_append_single]
      simp
    · simp [node_7_output, hw, node_fail, log_step_error]
  · refine ⟨ProcessingStep.mk "output_generation" ProcessingStatus.completed w.now
        (some w.now) (some (w.now - w.now)) none, ?_, Or.inl ⟨?_, rfl⟩⟩
    · simp only [node_7_output, hw, log_step_complete, log_step_start]
      rw [modifyLast_append_single]
      simp
    · simp [node_7_output, hw, log_step_complete]

/-- Counterexample to claim C2: a run exists (parsing fails, the later model
calls succeed) whose final status is Completed although its step list contains
Failed steps, so Completed does not imply that every step is Completed. -/
theorem c2_counterexample :
    (run_pipeline world_parse_fails demo_job).status = ProcessingStatus.completed ∧
    ((run_pipeline world_parse_fails demo_job).processing_steps.map
        ProcessingStep.status).contains ProcessingStatus.failed = true := by
  refine ⟨by decide, by decide⟩

/-- Claim C2 (amended): after a full pipeline run the job status is Failed if and
only if the last step is Failed (the output stage always writes both together);
but Completed only guarantees that the last step is Completed, not every step. -/
theorem c2_amended (w : ExternalWorld) (s : PipelineState) :
    ((run_pipeline w s).status = ProcessingStatus.failed ↔
      ((run_pipeline w s).processing_steps.getLast?.map ProcessingStep.status =
        some ProcessingStatus.failed)) ∧
    ((run_pipeline w s).status = ProcessingStatus.completed →
      (run_pipeline w s).processing_steps.getLast?.map ProcessingStep.status =
        some ProcessingStatus.completed) := by
  have hrun : run_pipeline w s =
      node_7_output w (node_6_fun w (node_5_novelty w (node_4_summarizer_context w
        (node_3_rag w (node_2_parsing w (node_1_ingestion w s)))))) := rfl
  obtain ⟨st, hsteps, hcase⟩ :=
    node_7_last_step w (node_6_fun w (node_5_novelty w (node_4_summarizer_context w
      (node_3_rag w (node_2_parsing w (node_1_ingestion w s))))))
  rw [hrun, hsteps, getLast?_append_single]
  rcases hcase with ⟨hs, hst⟩ | ⟨hs, hst⟩ <;> simp [hs, hst]

/-- Witness for c2_amended: the parsing-failure run ends Completed, and indeed
its last step is Completed. -/
theorem c2_amended_witness :
    (run_pipeline world_parse_fails demo_job).status = ProcessingStatus.completed ∧
    (run_pipeline world_parse_fails demo_job).processing_steps.getLast?.map
        ProcessingStep.status = some ProcessingStatus.completed :=
  ⟨by decide, (c2_amended world_parse_fails demo_job).2 (by decide)⟩

/-- Updating the stored record of a job id changes exactly what a later lookup of
that id returns. -/
theorem store_lookup_update (jobs : JobStore) (k : String) (st : PipelineState) :
    store_lookup (store_update jobs k st) k = (store_lookup jobs k).map (fun _ => st) := by
  induction jobs with
  | nil => rfl
  | cons e rest ih =>
      cases he : e.fst == k with
      | true =>
          simp [store_lookup, store_update, List.find?, he]
      | false =>
          simp only [store_lookup, store_update, List.map_cons, List.find?] at ih ⊢
          rw [if_neg (by simp [he]), he]
          simpa [he] using ih

/-- Counterexample to claim C3: cancelling a job whose status is the
novelty-analysis state fails and leaves the store untouched, although the claim
says every non-terminal status, that one included, can be cancelled. -/
theorem c3_counterexample :
    c3_state.status = ProcessingStatus.novelty_analysis ∧
    c3_state.status ≠ ProcessingStatus.completed ∧
    c3_state.status ≠ ProcessingStatus.failed ∧
    (cancel_job [("job-n", c3_state)] "job-n" 5).fst = false ∧
    (cancel_job [("job-n", c3_state)] "job-n" 5).snd = [("job-n", c3_state)] := by
  refine ⟨by decide, by decide, by decide, by decide, by decide⟩

/-- Claim C3 (amended): cancel succeeds exactly when the job exists and its
status is one of Queued, Ingesting, Parsing, RagProcessing, Summarizing or
Humanizing; on success the record becomes Failed with the fixed cancellation
message, and a second cancel fails; for every other status (Contextualizing,
NoveltyAnalysis, Synthesizing, Completed, Failed) the call is a no-op that
returns failure and leaves the store unchanged. -/
theorem c3_amended (jobs : JobStore) (job_id : String) (now now2 : Nat) :
    ((cancel_job jobs job_id now).fst = true ↔
      ∃ st, store_lookup jobs job_id = some st ∧ st.status ∈ cancellable_statuses) ∧
    ((cancel_job jobs job_id now).fst = false → (cancel_job jobs job_id now).snd = jobs) ∧
    (∀ st, store_lookup jobs job_id = some st → st.status ∈ cancellable_statuses →
      store_lookup (cancel_job jobs job_id now).snd job_id =
        some { st with status := ProcessingStatus.failed,
                       error_message := some "Job cancelled by user",
                       updated_at := now }) ∧
    ((cancel_job jobs job_id now).fst = true →
      (cancel_job (cancel_job jobs job_id now).snd job_id now2).fst = false) := by
  cases hl : store_lookup jobs job_id with
  | none =>
      have hpair : cancel_job jobs job_id now = (false, jobs) := by
        simp [cancel_job, hl]
      rw [hpair]
      refine ⟨?_, fun _ => rfl, ?_, ?_⟩
      · constructor
        · intro h
          simp at h
        · rintro ⟨st2, hst2, hc2⟩
          cases hst2
      · intro st2 hst2 hc2
        cases hst2
      · intro h
        simp at h
  | some st =>
      by_cases hc : st.status ∈ cancellable_statuses
      · have hpair : cancel_job jobs job_id now =
            (true, store_update jobs job_id
              { st with status := ProcessingStatus.failed,
                        error_message := some "Job cancelled by user",
                        updated_at := now }) := by
          simp [cancel_job, hl, hc]
        have hlook : store_lookup (store_update jobs job_id
            { st with status := ProcessingStatus.failed,
                      error_message := some "Job cancelled by user",
                      updated_at := now }) job_id =
            some { st with status := ProcessingStatus.failed,
                           error_message := some "Job cancelled by user",
                           updated_at := now } := by
          rw [store_lookup_update, hl]
          rfl
        rw [hpair]
        refine ⟨⟨fun _ => ⟨st, rfl, hc⟩, fun _ => rfl⟩, ?_, ?_, ?_⟩
        · intro h
          simp at h
        · intro st2 hst2 hc2
          cases hst2
          exact hlook
        · intro _
          simp [cancel_job, hlook, cancellable_statuses]
      · have hpair : cancel_job jobs job_id now = (false, jobs) := by
          simp [cancel_job, hl, hc]
        rw [hpair]
        refine ⟨?_, fun _ => rfl, ?_, ?_⟩
        · constructor
          · intro h
            simp at h
          · rintro ⟨st2, hst2, hc2⟩
            cases hst2
            exact absurd hc2 hc
        · intro st2 hst2 hc2
          cases hst2
          exact absurd hc2 hc
        · intro h
          simp at h

/-- Witness for c3_amended at a store holding one summarizing job. -/
theorem c3_amended_witness :
    store_lookup [("job-r", c3_running)] "job-r" = some c3_running ∧
    c3_running.status ∈ cancellable_statuses ∧
    store_lookup (cancel_job [("job-r", c3_running)] "job-r" 7).snd "job-r" =
      some { c3_running with status := ProcessingStatus.failed,
                             error_message := some "Job cancelled by user",
                             updated_at := 7 } :=
  ⟨by decide, by decide,
   (c3_amended [("job-r", c3_running)] "job-r" 7 8).2.2.1 c3_running (by decide) (by decide)⟩

/-- A stored pair's key always resolves to some record. -/
theorem store_mem_lookup (jobs : JobStore) :
    ∀ e ∈ jobs, ∃ st, store_lookup jobs e.fst = some st := by
  intro e he
  induction jobs with
  | nil => cases he
  | cons a rest ih =>
      cases hk : a.fst == e.fst with
      | true => exact ⟨a.snd, by simp [store_lookup, List.find?, hk]⟩
      | false =>
          rcases List.mem_cons.mp he with rfl | hr
          · simp at hk
          · rcases ih hr with ⟨st, hst⟩
            refine ⟨st, ?_⟩
            simp only [store_lookup, List.find?, hk]
            simpa [store_lookup] using hst

/-- Snapshotting a window of stored entries keeps exactly their keys, in order. -/
theorem snapshots_keep_ids (jobs : JobStore) :
    ∀ window : JobStore, (∀ e ∈ window, e ∈ jobs) →
      (window.filterMap (fun e => get_job_status jobs e.fst)).map JobSnapshot.job_id =
        window.map Prod.fst := by
  intro window
  induction window with
  | nil => intro _; rfl
  | cons a rest ih =>
      intro hmem
      rcases store_mem_lookup jobs a (hmem a (by simp)) with ⟨st, hst⟩
      have hsnap : get_job_status jobs a.fst = some
          { job_id := a.fst, status := st.status, processing_steps := st.processing_steps,
            current_step := st.current_step, error_message := st.error_message,
            paper_metadata := st.paper_metadata,
            analysis_result :=
              if st.status = ProcessingStatus.completed then
                some { serious_summary := st.serious_summary,
                       contextual_analysis := st.contextual_analysis,
                       novelty_score := st.novelty_score,
                       human_fun_summary := st.human_fun_summary,
                       final_digest := st.final_digest,
                       tweet_thread := st.tweet_thread,
                       blog_post := st.blog_post }
              else none } := by
        simp only [get_job_status, hst, Option.map_some']
      rw [List.filterMap_cons]
      simp only [hsnap, List.map_cons]
      rw [ih (fun e he => hmem e (by simp [he]))]

/-- Claim C9: listing returns snapshots in insertion (creation) order — the ids
of an unfiltered page are exactly the keys of the positional window, in store
order; after the three creations a, b, c, a call with limit 50 and offset 0
returns exactly those three in creation order; and the endpoint clamps any
requested limit above 100 down to 100 (leaving smaller limits alone) before the
service takes the page. -/
theorem c9_listing_order_and_clamp :
    (list_jobs_endpoint c9_store none 50 0).map JobSnapshot.job_id = ["a", "b", "c"] ∧
    (list_jobs_endpoint c9_store none 50 0).length = 3 ∧
    (∀ (jobs : JobStore) (limit offset : Nat),
      (list_jobs jobs none limit offset).map JobSnapshot.job_id =
        ((List.drop offset jobs).take limit).map Prod.fst) ∧
    (∀ (jobs : JobStore) (f : Option ProcessingStatus) (limit offset : Nat),
      list_jobs_endpoint jobs f limit offset = list_jobs jobs f (min limit 100) offset) := by
  refine ⟨by decide, by decide, ?_, ?_⟩
  · intro jobs limit offset
    unfold list_jobs
    exact snapshots_keep_ids jobs _ (fun e he =>
      List.mem_of_mem_drop (List.mem_of_mem_take he))
  · intro jobs f limit offset
    unfold list_jobs_endpoint
    have hmin : (if limit > 100 then 100 else limit) = min limit 100 := by
      rw [Nat.min_def]
      split <;> split <;> omega
    rw [hmin]

/-- Filtering first and then collecting is collecting with the test inlined. -/
theorem filter_then_filterMap {α β : Type} (p : α → Bool) (g : α → Option β) (l : List α) :
    (l.filter p).filterMap g = l.filterMap (fun a => if p a then g a else none) := by
  induction l with
  | nil => rfl
  | cons a rest ih =>
      cases hpa : p a <;> simp [List.filter_cons, List.filterMap_cons, hpa, ih]

/-- filterMap only depends on the pointwise behaviour of its function. -/
theorem filterMap_ext {α β : Type} (g1 g2 : α → Option β) (h : ∀ a, g1 a = g2 a) :
    ∀ l : List α, l.filterMap g1 = l.filterMap g2 := by
  intro l
  induction l with
  | nil => rfl
  | cons a rest ih => simp [List.filterMap_cons, h a, ih]

/-- Claim C10: with a status filter, the service filters after taking the
positional window offset to offset plus limit, so a filtered page can come back
with fewer than limit entries even though matching jobs exist outside the
window: with a Failed job stored before a Completed one, asking for Completed
jobs with limit 1 returns nothing, while limit 2 finds the completed job. -/
theorem c10_filter_after_slice :
    (∀ (jobs : JobStore) (f : ProcessingStatus) (limit offset : Nat),
      list_jobs jobs (some f) limit offset = slice_then_filter jobs f limit offset) ∧
    list_jobs c10_store (some ProcessingStatus.completed) 1 0 = [] ∧
    (list_jobs c10_store (some ProcessingStatus.completed) 2 0).map JobSnapshot.job_id =
      ["job-b"] := by
  refine ⟨?_, by decide, by decide⟩
  intro jobs f limit offset
  unfold list_jobs slice_then_filter
  rw [filter_then_filterMap]
  apply filterMap_ext
  intro e
  cases hb : e.snd.status == f <;> simp [bne, hb]

/-- A found index marks an occurrence of the pattern. -/
theorem listFind_prefix_at (pat : List Char) :
    ∀ (l : List Char) (n : Nat), listFind pat l = some n →
      pat.isPrefixOf (l.drop n) = true := by
  intro l
  induction l with
  | nil =>
      intro n h
      simp only [listFind] at h
      by_cases hp : pat.isEmpty = true
      · rw [if_pos hp] at h
        cases h
        have hnil : pat = [] := by
          cases pat with
          | nil => rfl
          | cons a t => cases hp
        subst hnil
        rfl
      · rw [if_neg hp] at h
        cases h
  | cons c rest ih =>
      intro n h
      simp only [listFind] at h
      by_cases hp : pat.isPrefixOf (c :: rest) = true
      · rw [if_pos hp] at h
        cases h
        simpa using hp
      · rw [if_neg hp] at h
        rcases Option.map_eq_some'.mp h with ⟨m, hm, hn⟩
        subst hn
        simpa using ih m hm

/-- The found index is the first: no occurrence starts strictly before it. -/
theorem listFind_first (pat : List Char) :
    ∀ (l : List Char) (n : Nat), listFind pat l = some n →
      ∀ m, m < n → pat.isPrefixOf (l.drop m) = false := by
  intro l
  induction l with
  | nil =>
      intro n h m hm
      simp only [listFind] at h
      by_cases hp : pat.isEmpty = true
      · rw [if_pos hp] at h
        cases h
        omega
      · rw [if_neg hp] at h
        cases h
  | cons c rest ih =>
      intro n h m hm
      simp only [listFind] at h
      by_cases hp : pat.isPrefixOf (c :: rest) = true
      · rw [if_pos hp] at h
        cases h
        omega
      · rw [if_neg hp] at h
        rcases Option.map_eq_some'.mp h with ⟨k, hk, hn⟩
        subst hn
        cases m with
        | zero =>
            rw [List.drop_zero]
            cases hpe : pat.isPrefixOf (c :: rest)
            · rfl
            · exact absurd hpe hp
        | succ m2 => simpa using ih k hk m2 (by omega)

/-- Mapping then filtering is collecting with the test inlined. -/
theorem map_filter_eq_filterMap {α β : Type} (g : α → β) (P : β → Bool) (l : List α) :
    (l.map g).filter P = l.filterMap (fun a => if P (g a) then some (g a) else none) := by
  induction l with
  | nil => rfl
  | cons a rest ih =>
      cases hp : P (g a) <;> simp [List.map_cons, List.filter_cons, List.filterMap_cons, hp, ih]

/-- One line of the tweet collector: when the marker test rejects the empty
string, the emptiness guard in the loop body is redundant. -/
theorem tweets_pointwise (P : String → Bool) (hP : P "" = false) (line : String) :
    (let t := py_strip line
     if t != "" && P t then some t else none) =
    (if P (py_strip line) then some (py_strip line) else none) := by
  cases hp : P (py_strip line) with
  | true =>
      have ht : ¬(py_strip line = "") := by
        intro h0
        rw [h0, hP] at hp
        cases hp
      have hne : (py_strip line != "") = true := by simp [ht]
      simp [hp, hne]
  | false => simp [hp]

/-- Counterexample to claim C7: on an input with no short-post marker, no
Twitter-thread heading and no blog heading, the digest does not degrade to the
entire remaining text: the conversation-line fallback keeps only the line with
a Friend tag, so the digest is a proper part of the input. -/
theorem c7_counterexample :
    py_in "1/🧵" c7_fallback = false ∧
    py_in "2. TWITTER THREAD" c7_fallback = false ∧
    py_in "BLOG POST STRUCTURE" c7_fallback = false ∧
    (∀ m ∈ tweet_markers, py_in m c7_fallback = false) ∧
    extract_final_digest c7_fallback = "**Friend:** hi" ∧
    extract_final_digest c7_fallback ≠ c7_fallback := by
  refine ⟨by decide, by decide, by decide, by decide, by decide, by decide⟩

/-- Claim C7 (amended): the synthesizer is total and extracts as follows.  The
digest is the stripped, header-cleaned text before the first occurrence of the
short-post marker when that marker occurs (the found split point really is the
first occurrence); when it is absent the digest falls back first to the text
before the Twitter-thread heading, then to a conversation-line heuristic, and
equals the entire input when that heuristic collects nothing (but not in
general).  The short posts are exactly the stripped lines beginning with an
ordinal marker, 1 through 9, in line order.  The long-form post is the text
from the first blog heading onward with the colon-terminated heading label
removed and stripped, and empty when no heading occurs.  The documented example
and the fully unmarked example behave as documented. -/
theorem c7_amended :
    (∀ (content : String) (n : Nat), listFind "1/🧵".data content.data = some n →
      extract_final_digest content =
        (if cleanup_conversation (py_strip (String.mk (content.data.take n))) = "" then content
         else cleanup_conversation (py_strip (String.mk (content.data.take n)))) ∧
      "1/🧵".data.isPrefixOf (content.data.drop n) = true ∧
      (∀ m, m < n → "1/🧵".data.isPrefixOf (content.data.drop m) = false)) ∧
    (∀ content : String, extract_tweet_thread content = spec_short_posts content) ∧
    (∀ content : String,
      listFind "3. BLOG POST STRUCTURE".data content.data = none →
      listFind "BLOG POST STRUCTURE".data content.data = none →
      extract_blog_post content = "") ∧
    (∀ (content : String) (n : Nat),
      listFind "3. BLOG POST STRUCTURE".data content.data = some n →
      extract_blog_post content =
        py_strip (py_replace (String.mk (content.data.drop n)) "3. BLOG POST STRUCTURE:" "") ∧
      (∀ m, m < n → "3. BLOG POST STRUCTURE".data.isPrefixOf (content.data.drop m) = false)) ∧
    (extract_final_digest c7_example = "Chat..." ∧
     extract_tweet_thread c7_example = ["1/🧵 Hook", "2/🧵 Point"] ∧
     extract_blog_post c7_example = "# Title\nBody") ∧
    (extract_final_digest c7_plain = c7_plain ∧
     extract_tweet_thread c7_plain = [] ∧
     extract_blog_post c7_plain = "") ∧
    (∀ content : String,
      listFind "1/🧵".data content.data = none →
      listFind "2. TWITTER THREAD".data content.data = none →
      conversation_collect [] (py_split_nl content) = [] →
      extract_final_digest content = content) := by
  refine ⟨?_, ?_, ?_, ?_, ⟨by decide, by decide, by decide⟩, ⟨by decide, by decide, by decide⟩, ?_⟩
  · intro content n h
    refine ⟨?_, listFind_prefix_at _ _ _ h, listFind_first _ _ _ h⟩
    simp only [extract_final_digest, friend_conversation_raw, cut_before, h, Option.map_some']
  · intro content
    unfold extract_tweet_thread spec_short_posts
    rw [map_filter_eq_filterMap]
    exact filterMap_ext _ _
      (tweets_pointwise (fun t => tweet_markers.any (fun m => py_startswith t m)) (by decide)) _
  · intro content h1 h2
    simp only [extract_blog_post, h1, h2]
  · intro content n h
    exact ⟨by simp only [extract_blog_post, h], listFind_first _ _ _ h⟩
  · intro content h1 h2 hcol
    simp only [extract_final_digest, friend_conversation_raw, cut_before, h1, h2,
      Option.map_none', hcol]
    rfl

/-- Witness for c7_amended at the documented example (marker at index 8) and the
fully unmarked input. -/
theorem c7_amended_witness :
    "1/🧵".data.isPrefixOf (c7_example.data.drop 8) = true ∧
    extract_blog_post c7_plain = "" ∧
    extract_final_digest c7_plain = c7_plain :=
  ⟨(c7_amended.1 c7_example 8 (by decide)).2.1,
   c7_amended.2.2.1 c7_plain (by decide) (by decide),
   c7_amended.2.2.2.2.2.2 c7_plain (by decide) (by decide) (by decide)⟩
